import Mathlib

/-!
Verification of the grid-interval estimator and layer-registry helpers of the
QGIS_WorkflowAutomation repository (scripts/districts.py, scripts/fundamentals.py).

The layer registry of a QgsProject is modelled as a list of layers in
registration order; `mapLayers().values()` iterates in that order and
`removeMapLayer` deletes the given layer.  The external pieces (the scipy
`curve_fit` solver and the QgsRasterLayer constructor/validity check) are
modelled as parameters: `curve_fit` either returns fitted parameters `(k, b)`
or fails with a convergence error (scipy raises `RuntimeError` when `maxfev`
is exhausted), and the raster layer's validity is a boolean decided by the
host GIS.
-/

/-- A registered map layer.  `lid` is the unique layer id QGIS assigns; only
the name takes part in the lookups performed by the scripts. -/
structure Layer where
  lid : Nat
  name : String
deriving DecidableEq, Repr

/-- `remove_existing_layer` of scripts/districts.py: iterate over the
registered layers and remove the first one whose name matches, then `break`. -/
def remove_existing_layer : List Layer → String → List Layer
  | [], _ => []
  | l :: ls, layer_name =>
    if l.name = layer_name then ls
    else l :: remove_existing_layer ls layer_name

/-- `remove_existing_layer` of scripts/fundamentals.py: same loop, but the
function returns `True` when a layer was removed and `False` otherwise. -/
def remove_existing_layer_found : List Layer → String → List Layer × Bool
  | [], _ => ([], false)
  | l :: ls, layer_name =>
    if l.name = layer_name then (ls, true)
    else
      let r := remove_existing_layer_found ls layer_name
      (l :: r.1, r.2)

/-- `load_bing_layer` of scripts/districts.py.  The `QgsRasterLayer`
constructor is external: the constructed layer and its `isValid()` result are
parameters.  The function first removes any existing layer with the given
name, then adds the new layer only when it is valid (returning it), and
returns `none` otherwise. -/
def load_bing_layer (project : List Layer) (bing_layer_name : String)
    (bing_layer : Layer) (bing_layer_valid : Bool) : List Layer × Option Layer :=
  let project1 := remove_existing_layer project bing_layer_name
  if bing_layer_valid then (project1 ++ [bing_layer], some bing_layer)
  else (project1, none)

/-- Failure of the nonlinear least-squares solver: scipy's `curve_fit` raises
`RuntimeError` when it has not converged within `maxfev` evaluations. -/
inductive FitError where
  | noConvergence : FitError
deriving DecidableEq, Repr

/-- The model function `power_law(area, k, b) = k * area ** b` defined inside
`set_grid_intervals` (scripts/districts.py).  Real exponentiation is `rpow`. -/
noncomputable def power_law (area k b : ℝ) : ℝ := k * area ^ b

/-- The five calibration areas (hectares) hardcoded in `set_grid_intervals`. -/
noncomputable def calib_areas : Fin 5 → ℝ := fun i =>
  match i with
  | ⟨0, _⟩ => 0.1
  | ⟨1, _⟩ => 1.0
  | ⟨2, _⟩ => 4.5
  | ⟨3, _⟩ => 9.5
  | ⟨4, _⟩ => 35.0

/-- The five calibration intervals (degrees) hardcoded in `set_grid_intervals`. -/
noncomputable def calib_intervals : Fin 5 → ℝ := fun i =>
  match i with
  | ⟨0, _⟩ => 0.0015
  | ⟨1, _⟩ => 0.001
  | ⟨2, _⟩ => 0.001
  | ⟨3, _⟩ => 0.00275
  | ⟨4, _⟩ => 0.00225

/-- `set_grid_intervals` of scripts/districts.py.  The call
`curve_fit(power_law, areas, intervals, maxfev=20000)` is an external solver;
its outcome — fitted parameters `(k, b)`, or a convergence failure that
propagates as an uncaught exception — is the parameter `curve_fit_result`.
Everything after the fit is translated literally from the source. -/
noncomputable def set_grid_intervals (curve_fit_result : Except FitError (ℝ × ℝ))
    (polygon_area : ℝ) : Except FitError (ℝ × ℝ) :=
  match curve_fit_result with
  | Except.error e => Except.error e
  | Except.ok (k, b) =>
    let polygon_area_ha := polygon_area / 10000
    let new_interval_x := power_law polygon_area_ha k b
    let new_interval_y := power_law polygon_area_ha k b
    let target_interval : ℝ := 0.001
    let adjustment_factor : ℝ := 0.85
    let new_interval_x2 := adjustment_factor * new_interval_x + (1 - adjustment_factor) * target_interval
    let new_interval_y2 := adjustment_factor * new_interval_y + (1 - adjustment_factor) * target_interval
    let lower_limit : ℝ := 0.001
    let upper_limit : ℝ := 0.0011
    Except.ok (max lower_limit (min new_interval_x2 upper_limit),
               max lower_limit (min new_interval_y2 upper_limit))

/-- The raw fitted interval: the power law evaluated at the input area
converted from square meters to hectares. -/
noncomputable def raw_fit (k b polygon_area : ℝ) : ℝ :=
  power_law (polygon_area / 10000) k b

/-- The pre-clamp blended value as the spec states it:
`blended = 0.85 * raw + 0.15 * 0.001`. -/
noncomputable def spec_blended (k b polygon_area : ℝ) : ℝ :=
  0.85 * raw_fit k b polygon_area + 0.15 * 0.001

/-- Claim C1: whatever parameters the fitted power-law model produced, both
interval values returned by `set_grid_intervals` lie in `[0.001, 0.0011]`. -/
theorem set_grid_intervals_clamped (k b polygon_area x y : ℝ)
    (h : set_grid_intervals (Except.ok (k, b)) polygon_area = Except.ok (x, y)) :
    (0.001 ≤ x ∧ x ≤ 0.0011) ∧ (0.001 ≤ y ∧ y ≤ 0.0011) := by
  simp only [set_grid_intervals, Except.ok.injEq, Prod.mk.injEq] at h
  obtain ⟨hx, hy⟩ := h
  subst hx; subst hy
  refine ⟨⟨le_max_left _ _, ?_⟩, le_max_left _ _, ?_⟩ <;>
    exact max_le (by norm_num) (min_le_right _ _)

theorem set_grid_intervals_clamped_witness :
    ((0.001 ≤ (0.001 : ℝ) ∧ (0.001 : ℝ) ≤ 0.0011) ∧
      (0.001 ≤ (0.001 : ℝ) ∧ (0.001 : ℝ) ≤ 0.0011)) := by
  refine set_grid_intervals_clamped 0 0 10000 0.001 0.001 ?h
  simp only [set_grid_intervals, power_law]
  norm_num [Real.one_rpow, min_def, max_def]

/-- Claim C2: the x-interval and y-interval returned by `set_grid_intervals`
are always equal to each other. -/
theorem set_grid_intervals_xy_equal (k b polygon_area x y : ℝ)
    (h : set_grid_intervals (Except.ok (k, b)) polygon_area = Except.ok (x, y)) :
    x = y := by
  simp only [set_grid_intervals, Except.ok.injEq, Prod.mk.injEq] at h
  obtain ⟨hx, hy⟩ := h
  subst hx; subst hy
  rfl

theorem set_grid_intervals_xy_equal_witness : (0.001 : ℝ) = 0.001 := by
  refine set_grid_intervals_xy_equal 0 0 10000 0.001 0.001 ?h
  simp only [set_grid_intervals, power_law]
  norm_num [Real.one_rpow, min_def, max_def]

/-- Claim C3: `set_grid_intervals` converts square meters to hectares by
dividing by 10000, evaluates the power law there, and the pre-clamp value is
exactly `0.85 * raw + 0.15 * 0.001`; the result is that value clamped. -/
theorem set_grid_intervals_blend_formula (k b polygon_area : ℝ) :
    set_grid_intervals (Except.ok (k, b)) polygon_area =
      Except.ok (max 0.001 (min (spec_blended k b polygon_area) 0.0011),
                 max 0.001 (min (spec_blended k b polygon_area) 0.0011)) := by
  have h15 : ((1 : ℝ) - 0.85) * 0.001 = 0.15 * 0.001 := by norm_num
  simp only [set_grid_intervals, spec_blended, raw_fit, h15]

/-- Claim C4: `set_grid_intervals` is deterministic — two calls with the same
fit outcome and the same input area return identical output pairs. -/
theorem set_grid_intervals_deterministic
    (fit₁ fit₂ : Except FitError (ℝ × ℝ)) (a₁ a₂ : ℝ)
    (hf : fit₁ = fit₂) (ha : a₁ = a₂) :
    set_grid_intervals fit₁ a₁ = set_grid_intervals fit₂ a₂ := by
  rw [hf, ha]

theorem set_grid_intervals_deterministic_witness :
    set_grid_intervals (Except.ok ((0 : ℝ), (0 : ℝ))) 10000 =
      set_grid_intervals (Except.ok ((0 : ℝ), (0 : ℝ))) 10000 :=
  set_grid_intervals_deterministic _ _ _ _ rfl rfl

/-- Claim C7: when the regression fails to converge, the failure propagates to
the caller unchanged; no interval pair and no default is returned. -/
theorem set_grid_intervals_error_propagates (e : FitError) (polygon_area : ℝ) :
    set_grid_intervals (Except.error e) polygon_area = Except.error e := rfl

/-- Claim C8: `set_grid_intervals` performs no input validation: for every
non-positive area it still returns a pair computed by feeding the degenerate
hectare value straight into the power-law evaluation — it never rejects. -/
theorem set_grid_intervals_accepts_nonpositive (k b polygon_area : ℝ)
    (h : polygon_area ≤ 0) :
    set_grid_intervals (Except.ok (k, b)) polygon_area =
      Except.ok
        (max 0.001 (min (0.85 * power_law (polygon_area / 10000) k b + (1 - 0.85) * 0.001) 0.0011),
         max 0.001 (min (0.85 * power_law (polygon_area / 10000) k b + (1 - 0.85) * 0.001) 0.0011)) :=
  rfl

theorem set_grid_intervals_accepts_nonpositive_witness :
    set_grid_intervals (Except.ok ((0 : ℝ), (0 : ℝ))) 0 =
      Except.ok
        (max 0.001 (min (0.85 * power_law ((0 : ℝ) / 10000) 0 0 + (1 - 0.85) * 0.001) 0.0011),
         max 0.001 (min (0.85 * power_law ((0 : ℝ) / 10000) 0 0 + (1 - 0.85) * 0.001) 0.0011)) :=
  set_grid_intervals_accepts_nonpositive 0 0 0 (le_refl 0)

/-- Key gap lemma: the calibration table is not monotone (the interval drops
from 0.0015 at 0.1 ha to 0.001 at 1 ha, then rises to 0.00275 at 9.5 ha),
while `k * area ^ b` is monotone in the area on `(0, ∞)` for every `k, b`.
Hence no parameter choice brings all of the residuals at 0.1, 1 and 9.5
hectares within 0.0002 degrees. -/
lemma power_law_calib_gap (k b : ℝ) :
    0.0002 < |power_law 0.1 k b - 0.0015| ∨
    0.0002 < |power_law 1.0 k b - 0.001| ∨
    0.0002 < |power_law 9.5 k b - 0.00275| := by
  have h10 : (1.0 : ℝ) = 1 := by norm_num
  have h1 : power_law 1.0 k b = k := by
    simp [power_law, h10, Real.one_rpow]
  by_cases hk : 0.0002 < |k - 0.001|
  · exact Or.inr (Or.inl (by rw [h1]; exact hk))
  · push_neg at hk
    obtain ⟨hkl, hku⟩ := abs_le.mp hk
    have hk0 : (0 : ℝ) ≤ k := by linarith
    by_cases hb : 0 ≤ b
    · refine Or.inl ?pos
      have hr : (0.1 : ℝ) ^ b ≤ 1 :=
        Real.rpow_le_one (by norm_num) (by norm_num) hb
      have hf : power_law 0.1 k b ≤ k := by
        simpa [power_law] using mul_le_of_le_one_right hk0 hr
      have hlt : 0.0002 < -(power_law 0.1 k b - 0.0015) := by linarith
      exact lt_of_lt_of_le hlt (neg_le_abs _)
    · push_neg at hb
      refine Or.inr (Or.inr ?neg)
      have hr : (9.5 : ℝ) ^ b ≤ 1 :=
        Real.rpow_le_one_of_one_le_of_nonpos (by norm_num) (le_of_lt hb)
      have hf : power_law 9.5 k b ≤ k := by
        simpa [power_law] using mul_le_of_le_one_right hk0 hr
      have hlt : 0.0002 < -(power_law 9.5 k b - 0.00275) := by linarith
      exact lt_of_lt_of_le hlt (neg_le_abs _)

/-- Claim C5, counterexample: it is false that some parameters `(k, b)` — in
particular the fitted ones — reproduce all five calibration intervals within
a 0.0002-degree tolerance. -/
theorem power_law_fit_reproduces_calibration_false :
    ¬ ∃ k b : ℝ, ∀ i : Fin 5,
        |power_law (calib_areas i) k b - calib_intervals i| ≤ 0.0002 := by
  rintro ⟨k, b, h⟩
  rcases power_law_calib_gap k b with hg | hg | hg
  · exact absurd (h ⟨0, by norm_num⟩) (not_le.mpr hg)
  · exact absurd (h ⟨1, by norm_num⟩) (not_le.mpr hg)
  · exact absurd (h ⟨3, by norm_num⟩) (not_le.mpr hg)

/-- Claim C5, amended: for every choice of power-law parameters `(k, b)` —
hence also for the least-squares fitted ones — at least one of the five
calibration points has a residual exceeding 0.0002 degrees; the fitted curve
cannot reproduce its own non-monotone training data within a small tolerance. -/
theorem power_law_fit_misses_calibration (k b : ℝ) :
    ∃ i : Fin 5,
      0.0002 < |power_law (calib_areas i) k b - calib_intervals i| := by
  rcases power_law_calib_gap k b with hg | hg | hg
  · exact ⟨⟨0, by norm_num⟩, hg⟩
  · exact ⟨⟨1, by norm_num⟩, hg⟩
  · exact ⟨⟨3, by norm_num⟩, hg⟩

/-- The districts.py loop removes exactly the first layer whose name matches
and leaves every other layer, in order, untouched. -/
lemma remove_layer_first_match (pre post : List Layer) (l : Layer) (n : String)
    (hl : l.name = n) (hpre : ∀ x ∈ pre, x.name ≠ n) :
    remove_existing_layer (pre ++ l :: post) n = pre ++ post := by
  induction pre with
  | nil => simp [remove_existing_layer, hl]
  | cons a as ih =>
    have ha : a.name ≠ n := hpre a (by simp)
    simp [remove_existing_layer, ha, ih (fun x hx => hpre x (by simp [hx]))]

/-- The fundamentals.py loop has the same registry effect and reports `true`. -/
lemma remove_layer_found_first_match (pre post : List Layer) (l : Layer) (n : String)
    (hl : l.name = n) (hpre : ∀ x ∈ pre, x.name ≠ n) :
    remove_existing_layer_found (pre ++ l :: post) n = (pre ++ post, true) := by
  induction pre with
  | nil => simp [remove_existing_layer_found, hl]
  | cons a as ih =>
    have ha : a.name ≠ n := hpre a (by simp)
    simp [remove_existing_layer_found, ha, ih (fun x hx => hpre x (by simp [hx]))]

/-- Claim C9: `remove_existing_layer` (both the districts.py and the
fundamentals.py versions) removes at most one layer per call: the first
registered layer named `n` is removed, and every other layer — including a
later layer with the same name — remains registered unchanged, in order. -/
theorem remove_existing_layer_removes_first_only
    (pre post : List Layer) (l : Layer) (n : String)
    (hl : l.name = n) (hpre : ∀ x ∈ pre, x.name ≠ n) :
    remove_existing_layer (pre ++ l :: post) n = pre ++ post ∧
      remove_existing_layer_found (pre ++ l :: post) n = (pre ++ post, true) :=
  ⟨remove_layer_first_match pre post l n hl hpre,
   remove_layer_found_first_match pre post l n hl hpre⟩

theorem remove_existing_layer_removes_first_only_witness :
    remove_existing_layer ([⟨1, "a"⟩] ++ ⟨2, "b"⟩ :: [⟨3, "b"⟩]) "b" =
        [⟨1, "a"⟩] ++ [⟨3, "b"⟩] ∧
      remove_existing_layer_found ([⟨1, "a"⟩] ++ ⟨2, "b"⟩ :: [⟨3, "b"⟩]) "b" =
        ([⟨1, "a"⟩] ++ [⟨3, "b"⟩], true) :=
  remove_existing_layer_removes_first_only [⟨1, "a"⟩] [⟨3, "b"⟩] ⟨2, "b"⟩ "b" rfl
    (by decide)

/-- Claim C10: `load_bing_layer` is not atomic on failure: it removes the
pre-existing layer of the given name before the validity check, so when the
new raster layer is invalid it returns `none` without adding a layer, yet the
pre-existing layer is gone from the registry and is not restored. -/
theorem load_bing_layer_invalid_drops_existing
    (pre post : List Layer) (l bing : Layer) (n : String)
    (hl : l.name = n) (hpre : ∀ x ∈ pre, x.name ≠ n) :
    load_bing_layer (pre ++ l :: post) n bing false = (pre ++ post, none) ∧
      pre ++ post ≠ pre ++ l :: post := by
  refine ⟨?heq, ?hne⟩
  · simp [load_bing_layer, remove_layer_first_match pre post l n hl hpre]
  · intro hcontra
    have hlen := congrArg List.length hcontra
    simp [List.length_append] at hlen

theorem load_bing_layer_invalid_drops_existing_witness :
    load_bing_layer (([] : List Layer) ++ ⟨1, "Bing"⟩ :: []) "Bing" ⟨2, "Bing"⟩ false =
        (([] : List Layer) ++ [], none) ∧
      ([] : List Layer) ++ [] ≠ ([] : List Layer) ++ ⟨1, "Bing"⟩ :: [] :=
  load_bing_layer_invalid_drops_existing [] [] ⟨1, "Bing"⟩ ⟨2, "Bing"⟩ "Bing" rfl
    (by simp)
